import Mathlib

set_option maxRecDepth 4000

/-!
Shallow embedding of the us_visa pipeline components under verification:
`DataValidation` (src/us_visa/components/data_validation.py) and
`ModelEvaluation` (src/us_visa/components/model_evaluation.py).

Dataframes are lists of named columns holding integer or string cells.
Fallible steps (file reads, pandas column access, model loading,
prediction, sklearn metric computation) are modelled with `Except`;
Python exception objects are modelled by `PyException`, whose
`USvisaException` constructor is the wrapped error kind that every
component boundary re-raises.
-/

deriving instance DecidableEq for Except

/-- A cell of a tabular dataset: a numeric value or a string label. -/
inductive Cell where
  | int (i : Int)
  | str (s : String)
deriving DecidableEq, Repr

/-- A named column of a dataframe. -/
structure Column where
  name : String
  values : List Cell
deriving DecidableEq, Repr

/-- A pandas `DataFrame`: an ordered list of named columns. -/
structure DataFrame where
  cols : List Column
deriving DecidableEq, Repr

/-- The list of column names of a dataframe (`dataframe.columns`). -/
def DataFrame.columnNames (df : DataFrame) : List String :=
  df.cols.map Column.name

/-- The schema configuration loaded from `config/schema.yaml` by
`read_yaml_file`: the validator uses the `columns` list (only its
length), and the `numerical_columns` / `categorical_columns` name
lists. -/
structure SchemaConfig where
  columns : List String
  numerical_columns : List String
  categorical_columns : List String
deriving DecidableEq, Repr

/-- A Python exception value: either a raw library error (pandas,
sklearn, pickle, ...) identified by its message, or a
`USvisaException` wrapping an originating exception, as raised by
`raise USvisaException(e, sys)`. -/
inductive PyException where
  | raw (msg : String)
  | USvisaException (inner : PyException)
deriving DecidableEq, Repr

/-- The `DataValidationArtifact` record produced by
`initiate_data_validation`. -/
structure DataValidationArtifact where
  validation_status : Bool
  message : String
  drift_report_file_path : String
deriving DecidableEq, Repr

/-- The part of `DataValidationConfig` the validator reads:
`drift_report_file_path`. -/
structure DataValidationConfig where
  drift_report_file_path : String
deriving DecidableEq, Repr

/-- Source method `DataValidation.validate_number_of_columns`: the column
count of the dataframe is compared with the length of the `columns` list of the schema
(`len(dataframe.columns) == len(self._schema_config["columns"])`). -/
def validate_number_of_columns (schema : SchemaConfig) (dataframe : DataFrame) : Bool :=
  dataframe.cols.length == schema.columns.length

/-- The missing-column accumulation loop of
`DataValidation.is_column_exist`: walk the required names in order and
append each one absent from the columns of the dataframe. -/
def missingColumns (required : List String) (dataframe_columns : List String) : List String :=
  required.foldl
    (fun acc column => if dataframe_columns.contains column then acc else acc ++ [column])
    []

/-- Source method `DataValidation.is_column_exist`: collect the numerical and
categorical names missing from the dataframe and succeed iff both
missing lists are empty
(`not (len(missing_categorical_columns) > 0 or len(missing_numerical_columns) > 0)`). -/
def is_column_exist (schema : SchemaConfig) (df : DataFrame) : Bool :=
  let dataframe_columns := df.columnNames
  let missing_numerical_columns := missingColumns schema.numerical_columns dataframe_columns
  let missing_categorical_columns := missingColumns schema.categorical_columns dataframe_columns
  !(decide (0 < missing_categorical_columns.length) ||
    decide (0 < missing_numerical_columns.length))

/-- Source method `DataValidation.read_data`: `pd.read_csv` either yields a dataframe
or raises; a raw read error is wrapped into `USvisaException`. The
outcome of the underlying file read is passed in as an `Except`. -/
def read_data (file_read : Except String DataFrame) : Except PyException DataFrame :=
  match file_read with
  | Except.ok df => Except.ok df
  | Except.error e => Except.error (PyException.USvisaException (PyException.raw e))

/-- The `except` boundary of `initiate_data_validation` and
`initiate_model_evaluation` (`raise USvisaException(e, sys) from e`):
any exception escaping the try body — raw or already a
`USvisaException` — is re-raised wrapped in `USvisaException`. -/
def wrapUSvisa {α : Type} (body : Except PyException α) : Except PyException α :=
  match body with
  | Except.ok a => Except.ok a
  | Except.error e => Except.error (PyException.USvisaException e)

/-- The try body of `DataValidation.initiate_data_validation`: read both
dataframes, run the four checks accumulating `validation_error_msg`,
derive the status and final message, and build the artifact. -/
def initiate_data_validation_body (schema : SchemaConfig)
    (trained_file : Except String DataFrame) (test_file : Except String DataFrame)
    (config : DataValidationConfig) : Except PyException DataValidationArtifact := do
    let validation_error_msg := ""
    let train_df ← read_data trained_file
    let test_df ← read_data test_file
    let status_train_cols := validate_number_of_columns schema train_df
    let validation_error_msg :=
      if !status_train_cols then validation_error_msg ++ "Columns are missing in training dataframe. "
      else validation_error_msg
    let status_test_cols := validate_number_of_columns schema test_df
    let validation_error_msg :=
      if !status_test_cols then validation_error_msg ++ "Columns are missing in test dataframe. "
      else validation_error_msg
    let status_train_exist := is_column_exist schema train_df
    let validation_error_msg :=
      if !status_train_exist then validation_error_msg ++ "Required numerical/categorical columns are missing in training dataframe. "
      else validation_error_msg
    let status_test_exist := is_column_exist schema test_df
    let validation_error_msg :=
      if !status_test_exist then validation_error_msg ++ "Required numerical/categorical columns are missing in test dataframe. "
      else validation_error_msg
    let validation_status := validation_error_msg.length == 0
    let final_validation_message :=
      if validation_status then "Data validation successful. No schema or column issues found."
      else "Data validation failed due to: " ++ validation_error_msg
    Except.ok { validation_status := validation_status
                message := final_validation_message
                drift_report_file_path := config.drift_report_file_path }

/-- Source method `DataValidation.initiate_data_validation`: run the try body and
re-raise any escaping exception wrapped in `USvisaException`. -/
def initiate_data_validation (schema : SchemaConfig)
    (trained_file : Except String DataFrame) (test_file : Except String DataFrame)
    (config : DataValidationConfig) : Except PyException DataValidationArtifact :=
  wrapUSvisa (initiate_data_validation_body schema trained_file test_file config)

/-- Modelled from the spec: `TARGET_COLUMN` from `us_visa.constants`
(not under src/). The spec only calls it "the target label column"; its
concrete name is external configuration, so a fixed placeholder name is
used (no claim depends on its value). -/
def TARGET_COLUMN : String := "case_status"

/-- Modelled from the spec: `CURRENT_YEAR` from `us_visa.constants`
(not under src/), "a reference year" subtracted from the
year-of-establishment column (no claim depends on its value). -/
def CURRENT_YEAR : Int := 2025

/-- Modelled from the spec: `TargetValueMapping()._asdict()` from
`us_visa.entity.estimator` (not under src/), the fixed bidirectional
label mapping; the spec gives Certified → 1, Denied → 0. -/
def TargetValueMapping_asdict : List (String × Int) :=
  [("Certified", 1), ("Denied", 0)]

/-- Look up a column by name (first match), as pandas label lookup. -/
def DataFrame.getColumn (df : DataFrame) (label : String) : Option Column :=
  df.cols.find? (fun c => c.name == label)

/-- A pandas series access `df[label]`: the cell list of the column, or a
`KeyError` when the label names no column. -/
def DataFrame.getSeries (df : DataFrame) (label : String) : Except String (List Cell) :=
  match df.getColumn label with
  | some c => Except.ok c.values
  | none => Except.error ("KeyError: " ++ label)

/-- A pandas column assignment `df[label] = values`: replace the column
in place when the label exists, otherwise append a new column. -/
def DataFrame.setColumn (df : DataFrame) (label : String) (values : List Cell) : DataFrame :=
  if df.cols.any (fun c => c.name == label) then
    ⟨df.cols.map (fun c => if c.name == label then ⟨label, values⟩ else c)⟩
  else ⟨df.cols ++ [⟨label, values⟩]⟩

/-- A pandas `df.drop(label, axis=1)`: remove the labelled column, or
raise a `KeyError` when the label names no column. -/
def DataFrame.drop (df : DataFrame) (label : String) : Except String DataFrame :=
  if df.cols.any (fun c => c.name == label) then
    Except.ok ⟨df.cols.filter (fun c => !(c.name == label))⟩
  else Except.error ("KeyError: " ++ label)

/-- The series arithmetic subtracting `yr_of_estab` from `CURRENT_YEAR`:
element-wise integer subtraction; a string cell raises a pandas
`TypeError`. -/
def companyAgeSeries : List Cell → Except String (List Cell)
  | [] => Except.ok []
  | Cell.int v :: rest =>
      match companyAgeSeries rest with
      | Except.ok ages => Except.ok (Cell.int (CURRENT_YEAR - v) :: ages)
      | Except.error e => Except.error e
  | Cell.str _ :: _ =>
      Except.error "TypeError: unsupported operand types for subtraction"

/-- One cell of the pandas `y.replace(target_mapping)`: a string label
found in the mapping becomes its integer; any other cell is kept. -/
def replaceCell (mapping : List (String × Int)) (c : Cell) : Cell :=
  match c with
  | Cell.str s =>
      match mapping.find? (fun p => p.fst == s) with
      | some p => Cell.int p.snd
      | none => c
  | Cell.int _ => c

/-- The deserialized `USvisaModel`: the evaluator uses only its
`predict` capability, which may itself raise. -/
structure USvisaModel where
  predict : DataFrame → Except String (List Int)

/-- Conversion of the mapped ground-truth series to integer labels for
sklearn: a remaining string cell makes `f1_score` raise its
mixed-label-types `ValueError`. -/
def seriesToLabels : List Cell → Except String (List Int)
  | [] => Except.ok []
  | Cell.int i :: rest =>
      match seriesToLabels rest with
      | Except.ok labels => Except.ok (i :: labels)
      | Except.error e => Except.error e
  | Cell.str _ :: _ => Except.error "ValueError: Mix of label input types"

/-- True positives of a binary prediction: ground truth and prediction
both equal the positive label 1 (the sklearn default `pos_label`). -/
def countTP (y_true y_pred : List Int) : Nat :=
  ((y_true.zip y_pred).filter (fun p => p.fst == 1 && p.snd == 1)).length

/-- False positives: prediction 1 on a non-1 ground truth. -/
def countFP (y_true y_pred : List Int) : Nat :=
  ((y_true.zip y_pred).filter (fun p => !(p.fst == 1) && p.snd == 1)).length

/-- False negatives: prediction not 1 on a ground truth 1. -/
def countFN (y_true y_pred : List Int) : Nat :=
  ((y_true.zip y_pred).filter (fun p => p.fst == 1 && !(p.snd == 1))).length

/-- Whether a label list holds more than two distinct values, in which
case the sklearn binary-average `f1_score` raises. -/
def isMulticlass (labels : List Int) : Bool :=
  labels.any (fun a => labels.any (fun b => labels.any (fun c =>
    a != b && a != c && b != c)))

/-- sklearn `f1_score(y, y_pred)` with its defaults (binary average,
`pos_label=1`): raises on length mismatch or on more than two distinct
labels; otherwise returns the rational `2·tp / (2·tp + fp + fn)`
(written with `mkRat`, which equals that quotient), with the
zero-division convention giving 0. -/
def f1_score (y_true y_pred : List Int) : Except String ℚ :=
  if y_true.length ≠ y_pred.length then
    Except.error "ValueError: Found input variables with inconsistent numbers of samples"
  else if isMulticlass (y_true ++ y_pred) then
    Except.error "ValueError: Target is multiclass but average=binary"
  else
    let tp := countTP y_true y_pred
    let fp := countFP y_true y_pred
    let fn := countFN y_true y_pred
    if 2 * tp + fp + fn = 0 then Except.ok 0
    else Except.ok (mkRat (2 * tp) (2 * tp + fp + fn))

/-- The `EvaluateModelResponse` dataclass. -/
structure EvaluateModelResponse where
  trained_model_f1_score : ℚ
  best_model_f1_score : ℚ
  is_model_accepted : Bool
  difference : ℚ
deriving DecidableEq, Repr

/-- The `ModelEvaluationArtifact` record produced by
`initiate_model_evaluation`. -/
structure ModelEvaluationArtifact where
  is_model_accepted : Bool
  trained_model_path : String
  changed_accuracy : ℚ
deriving DecidableEq, Repr

/-- The `except` boundary of `evaluate_model`
(`raise USvisaException(e, sys)`): a raw exception escaping the body is
re-raised wrapped in `USvisaException`. -/
def wrapRaw {α : Type} (body : Except String α) : Except PyException α :=
  match body with
  | Except.ok r => Except.ok r
  | Except.error e => Except.error (PyException.USvisaException (PyException.raw e))

/-- Try body of `ModelEvaluation.evaluate_model`: load the test dataframe, derive
`company_age = CURRENT_YEAR - yr_of_estab`, split features `x` from the
target series `y`, map the target labels, load the trained model,
predict, compute the F1 score, and return the response with the
degenerate acceptance policy (`is_model_accepted = True`,
`best = trained`, `difference = 0.0`). The underlying file reads are
passed in as `Except` values. -/
def evaluate_model_body (test_file : Except String DataFrame)
    (load_model : Except String USvisaModel) : Except String EvaluateModelResponse := do
    let test_df ← test_file
    let yr_of_estab ← test_df.getSeries "yr_of_estab"
    let company_age ← companyAgeSeries yr_of_estab
    let test_df := test_df.setColumn "company_age" company_age
    let x ← test_df.drop TARGET_COLUMN
    let y ← test_df.getSeries TARGET_COLUMN
    let target_mapping := TargetValueMapping_asdict
    let y := y.map (replaceCell target_mapping)
    let trained_model_obj ← load_model
    let y_pred_trained_model ← trained_model_obj.predict x
    let y_labels ← seriesToLabels y
    let trained_model_f1_score ← f1_score y_labels y_pred_trained_model
    let best_model_f1_score : Option ℚ := none
    let is_model_accepted := false
    let difference : ℚ := 0
    let is_model_accepted := true
    let best_model_f1_score := trained_model_f1_score
    let difference : ℚ := 0
    Except.ok { trained_model_f1_score := trained_model_f1_score
                best_model_f1_score := best_model_f1_score
                is_model_accepted := is_model_accepted
                difference := difference }

/-- Source method `ModelEvaluation.evaluate_model` with its `except` boundary: run the
try body and re-raise any escaping raw exception wrapped in
`USvisaException`. -/
def evaluate_model (test_file : Except String DataFrame)
    (load_model : Except String USvisaModel) : Except PyException EvaluateModelResponse :=
  wrapRaw (evaluate_model_body test_file load_model)

/-- Source method `ModelEvaluation.initiate_model_evaluation`: run `evaluate_model`
and package the artifact; any exception escaping (already a
`USvisaException` from `evaluate_model`) is re-raised wrapped in
`USvisaException`. -/
def initiate_model_evaluation (test_file : Except String DataFrame)
    (load_model : Except String USvisaModel)
    (trained_model_file_path : String) : Except PyException ModelEvaluationArtifact :=
  wrapUSvisa (do
    let evaluate_model_response ← evaluate_model test_file load_model
    Except.ok { is_model_accepted := evaluate_model_response.is_model_accepted
                trained_model_path := trained_model_file_path
                changed_accuracy := evaluate_model_response.difference })

/-- The `validation_error_msg` accumulation of
`initiate_data_validation`, as a function of the four check outcomes
(train count, test count, train existence, test existence). -/
def validation_error_message (c1 c2 c3 c4 : Bool) : String :=
  let m := ""
  let m := if !c1 then m ++ "Columns are missing in training dataframe. " else m
  let m := if !c2 then m ++ "Columns are missing in test dataframe. " else m
  let m := if !c3 then m ++ "Required numerical/categorical columns are missing in training dataframe. " else m
  if !c4 then m ++ "Required numerical/categorical columns are missing in test dataframe. " else m

/-- Follows the words of the spec: precision of a binary prediction, true
positives over all predicted positives. -/
def precisionSpec (y_true y_pred : List Int) : ℚ :=
  (countTP y_true y_pred : ℚ) /
    ((countTP y_true y_pred : ℚ) + (countFP y_true y_pred : ℚ))

/-- Follows the words of the spec: recall of a binary prediction, true
positives over all actual positives. -/
def recallSpec (y_true y_pred : List Int) : ℚ :=
  (countTP y_true y_pred : ℚ) /
    ((countTP y_true y_pred : ℚ) + (countFN y_true y_pred : ℚ))

/-- The test dataframe of Scenario 3 of the spec: ground-truth labels
Certified, Denied, Certified, Certified. -/
def dfScenario3 : DataFrame :=
  ⟨[⟨"yr_of_estab", [Cell.int 2000, Cell.int 2001, Cell.int 2002, Cell.int 2003]⟩,
    ⟨"case_status", [Cell.str "Certified", Cell.str "Denied", Cell.str "Certified", Cell.str "Certified"]⟩]⟩

/-- The predictor of Scenario 3 of the spec: predicts the mapped labels
of Certified, Certified, Certified, Denied. -/
def modelScenario3 : USvisaModel := ⟨fun _ => Except.ok [1, 1, 1, 0]⟩

/-!
Helper lemmas about the `Except` monad and the exception boundaries.
-/

/-- Binding a success just applies the continuation. -/
theorem exceptBind_ok_left {ε α β : Type} (a : α) (f : α → Except ε β) :
    (Except.ok a : Except ε α) >>= f = f a := rfl

/-- Binding an error short-circuits. -/
theorem exceptBind_error_left {ε α β : Type} (e : ε) (f : α → Except ε β) :
    (Except.error e : Except ε α) >>= f = Except.error e := rfl

/-- Inversion of a successful bind. -/
theorem exceptBind_eq_ok {ε α β : Type} {x : Except ε α} {f : α → Except ε β} {b : β}
    (h : x >>= f = Except.ok b) : ∃ a, x = Except.ok a ∧ f a = Except.ok b := by
  cases x with
  | ok a => exact ⟨a, rfl, h⟩
  | error e => simp [exceptBind_error_left] at h

/-- A success passes `wrapRaw` unchanged. -/
theorem wrapRaw_eq_ok {α : Type} {b : Except String α} {a : α}
    (h : wrapRaw b = Except.ok a) : b = Except.ok a := by
  cases b with
  | ok x => simpa [wrapRaw] using h
  | error e => simp [wrapRaw] at h

/-- Whenever `wrapRaw` returns no value, it returns a
`USvisaException`-wrapped error. -/
theorem wrapRaw_error_shape {α : Type} {b : Except String α}
    (h : ∀ a, wrapRaw b ≠ Except.ok a) :
    ∃ p, wrapRaw b = Except.error (PyException.USvisaException p) := by
  cases b with
  | ok x => exact absurd rfl (h x)
  | error e => exact ⟨PyException.raw e, rfl⟩

/-- A success passes `wrapUSvisa` unchanged. -/
theorem wrapUSvisa_eq_ok {α : Type} {b : Except PyException α} {a : α}
    (h : wrapUSvisa b = Except.ok a) : b = Except.ok a := by
  cases b with
  | ok x => simpa [wrapUSvisa] using h
  | error e => simp [wrapUSvisa] at h

/-- Whenever `wrapUSvisa` returns no value, it returns a
`USvisaException`-wrapped error. -/
theorem wrapUSvisa_error_shape {α : Type} {b : Except PyException α}
    (h : ∀ a, wrapUSvisa b ≠ Except.ok a) :
    ∃ p, wrapUSvisa b = Except.error (PyException.USvisaException p) := by
  cases b with
  | ok x => exact absurd rfl (h x)
  | error e => exact ⟨e, rfl⟩

/-- The accumulation loop of `missingColumns` is a filter: it keeps, in
order, exactly the required names absent from the dataframe. -/
theorem missingColumns_eq_filter (required dataframe_columns : List String) :
    missingColumns required dataframe_columns =
      required.filter (fun c => !(dataframe_columns.contains c)) := by
  suffices h : ∀ acc : List String,
      required.foldl
        (fun acc column =>
          if dataframe_columns.contains column then acc else acc ++ [column]) acc =
        acc ++ required.filter (fun c => !(dataframe_columns.contains c)) by
    simpa [missingColumns] using h []
  induction required with
  | nil => intro acc; simp
  | cons hd tl ih =>
      intro acc
      rw [List.foldl_cons, List.filter_cons]
      cases hc : dataframe_columns.contains hd with
      | true =>
          rw [if_pos rfl, if_neg (by decide)]
          exact ih acc
      | false =>
          rw [if_neg (by decide), if_pos (by decide)]
          rw [ih (acc ++ [hd])]
          simp






/-- On two successfully read dataframes the validator always returns an
artifact, whose fields are determined by the four check outcomes. -/
theorem initiate_data_validation_ok_eq (schema : SchemaConfig) (tr te : DataFrame)
    (cfg : DataValidationConfig) :
    initiate_data_validation schema (Except.ok tr) (Except.ok te) cfg =
      Except.ok
        { validation_status :=
            (validation_error_message (validate_number_of_columns schema tr)
              (validate_number_of_columns schema te) (is_column_exist schema tr)
              (is_column_exist schema te)).length == 0
          message :=
            if (validation_error_message (validate_number_of_columns schema tr)
                  (validate_number_of_columns schema te) (is_column_exist schema tr)
                  (is_column_exist schema te)).length == 0 then
              "Data validation successful. No schema or column issues found."
            else
              "Data validation failed due to: " ++
                validation_error_message (validate_number_of_columns schema tr)
                  (validate_number_of_columns schema te) (is_column_exist schema tr)
                  (is_column_exist schema te)
          drift_report_file_path := cfg.drift_report_file_path } := rfl

/-- Applied to an all-integer year column, `companyAgeSeries` subtracts each
year from `CURRENT_YEAR`, row by row. -/
theorem companyAgeSeries_map (yrs : List Int) :
    companyAgeSeries (yrs.map Cell.int) =
      Except.ok (yrs.map (fun v => Cell.int (CURRENT_YEAR - v))) := by
  induction yrs with
  | nil => rfl
  | cons h t ih => simp [companyAgeSeries, ih]

/-!
Claim theorems.
-/

/-- C2: for every dataframe D, `validate_number_of_columns` returns
true iff the number of columns of D equals the length of the
`columns` list of the schema, and false for any other count; only the count is
compared, never the column names. -/
theorem claim_C2 (schema : SchemaConfig) (D : DataFrame) :
    validate_number_of_columns schema D = true ↔
      D.cols.length = schema.columns.length := by
  simp [validate_number_of_columns]

/-- C9: the result of `validate_number_of_columns` depends only on the
column count of its input: two dataframes with equal column counts get
the same boolean under the same schema, whatever their names, row
counts or cell values. -/
theorem claim_C9 (schema : SchemaConfig) (df1 df2 : DataFrame)
    (h : df1.cols.length = df2.cols.length) :
    validate_number_of_columns schema df1 = validate_number_of_columns schema df2 := by
  simp [validate_number_of_columns, h]

/-- Witness for C9: two one-column dataframes with different names,
row counts and cell values validate identically. -/
theorem claim_C9_witness :
    validate_number_of_columns ⟨["A"], [], []⟩ ⟨[⟨"A", []⟩]⟩ =
      validate_number_of_columns ⟨["A"], [], []⟩ ⟨[⟨"Z", [Cell.int 5, Cell.str "x"]⟩]⟩ :=
  claim_C9 ⟨["A"], [], []⟩ ⟨[⟨"A", []⟩]⟩ ⟨[⟨"Z", [Cell.int 5, Cell.str "x"]⟩]⟩ (by decide)

/-- C3: `is_column_exist` is true iff every schema-required numerical
and categorical name appears among the columns of the dataframe; the two
missing-name lists are exactly the absent numerical names and the
absent categorical names, in schema order; with both required lists
empty the check passes on any dataframe. -/
theorem claim_C3 (schema : SchemaConfig) (df : DataFrame) :
    (is_column_exist schema df = true ↔
      ∀ c ∈ schema.numerical_columns ++ schema.categorical_columns,
        c ∈ df.columnNames) ∧
    missingColumns schema.numerical_columns df.columnNames =
      schema.numerical_columns.filter (fun c => !(df.columnNames.contains c)) ∧
    missingColumns schema.categorical_columns df.columnNames =
      schema.categorical_columns.filter (fun c => !(df.columnNames.contains c)) ∧
    (schema.numerical_columns = [] → schema.categorical_columns = [] →
      is_column_exist schema df = true) := by
  refine ⟨?_, missingColumns_eq_filter _ _, missingColumns_eq_filter _ _, ?_⟩
  · simp only [is_column_exist, missingColumns_eq_filter]
    simp [List.filter_eq_nil_iff, List.length_pos, and_comm]
    constructor
    · rintro ⟨hnum, hcat⟩ c hc
      cases hc with
      | inl h => exact hnum c h
      | inr h => exact hcat c h
    · intro h
      exact ⟨fun c hc => h c (Or.inl hc), fun c hc => h c (Or.inr hc)⟩
  · intro h1 h2
    simp [is_column_exist, h1, h2, missingColumns]

/-- Witness for C3: a schema requiring nothing accepts a dataframe it
has never seen. -/
theorem claim_C3_witness :
    is_column_exist ⟨["A"], [], []⟩ ⟨[⟨"B", [Cell.int 3]⟩]⟩ = true :=
  (claim_C3 ⟨["A"], [], []⟩ ⟨[⟨"B", [Cell.int 3]⟩]⟩).2.2.2 rfl rfl

/-- C5: for every pair of loaded train/test dataframes, the
`validation_status` field of the produced artifact is true iff no
check appended a failure phrase,
i.e. iff all four sub-checks passed. -/
theorem claim_C5 (schema : SchemaConfig) (tr te : DataFrame) (cfg : DataValidationConfig)
    (a : DataValidationArtifact)
    (h : initiate_data_validation schema (Except.ok tr) (Except.ok te) cfg = Except.ok a) :
    a.validation_status = true ↔
      (validate_number_of_columns schema tr = true ∧
       validate_number_of_columns schema te = true ∧
       is_column_exist schema tr = true ∧
       is_column_exist schema te = true) := by
  rw [initiate_data_validation_ok_eq] at h
  injection h with h
  subst h
  cases hc1 : validate_number_of_columns schema tr <;>
    cases hc2 : validate_number_of_columns schema te <;>
      cases hc3 : is_column_exist schema tr <;>
        cases hc4 : is_column_exist schema te <;>
          simp [validation_error_message] <;> decide

/-- Witness for C5: a passing run has status true and all checks pass. -/
theorem claim_C5_witness :
    (({ validation_status := true,
        message := "Data validation successful. No schema or column issues found.",
        drift_report_file_path := "drift.yaml" } : DataValidationArtifact).validation_status = true ↔
      (validate_number_of_columns ⟨["A"], [], []⟩ ⟨[⟨"A", []⟩]⟩ = true ∧
       validate_number_of_columns ⟨["A"], [], []⟩ ⟨[⟨"A", []⟩]⟩ = true ∧
       is_column_exist ⟨["A"], [], []⟩ ⟨[⟨"A", []⟩]⟩ = true ∧
       is_column_exist ⟨["A"], [], []⟩ ⟨[⟨"A", []⟩]⟩ = true)) :=
  claim_C5 ⟨["A"], [], []⟩ ⟨[⟨"A", []⟩]⟩ ⟨[⟨"A", []⟩]⟩ ⟨"drift.yaml"⟩ _ (by decide)

/-- C10: every artifact the validator produces carries the configured
`drift_report_file_path` unchanged, whether validation passes or
fails. -/
theorem claim_C10 (schema : SchemaConfig) (tf sf : Except String DataFrame)
    (cfg : DataValidationConfig) (a : DataValidationArtifact)
    (h : initiate_data_validation schema tf sf cfg = Except.ok a) :
    a.drift_report_file_path = cfg.drift_report_file_path := by
  cases tf with
  | error e =>
      have hb := wrapUSvisa_eq_ok h
      simp [initiate_data_validation_body, read_data, exceptBind_error_left] at hb
  | ok tr =>
      cases sf with
      | error e =>
          have hb := wrapUSvisa_eq_ok h
          simp [initiate_data_validation_body, read_data, exceptBind_ok_left,
            exceptBind_error_left] at hb
      | ok te =>
          rw [initiate_data_validation_ok_eq] at h
          injection h with h
          subst h
          rfl

/-- Witness for C10: a failing-status artifact still carries the
configured drift-report path. -/
theorem claim_C10_witness :
    ({ validation_status := false,
       message := "Data validation failed due to: Columns are missing in training dataframe. Columns are missing in test dataframe. ",
       drift_report_file_path := "cfg_drift.yaml" } : DataValidationArtifact).drift_report_file_path =
      ({ drift_report_file_path := "cfg_drift.yaml" } : DataValidationConfig).drift_report_file_path :=
  claim_C10 ⟨["A"], [], []⟩ (Except.ok ⟨[]⟩) (Except.ok ⟨[]⟩) ⟨"cfg_drift.yaml"⟩ _ (by decide)

/-- Counterexample to C4 as stated: with a schema expecting three
columns and a two-column training dataframe, exactly one sub-check
fails (the train column-count), yet the message of the artifact is not the
concatenation of exactly the failure phrases of the failed checks — it
additionally carries the fixed failure lead-in
"Data validation failed due to: ". -/
theorem claim_C4_counterexample :
    initiate_data_validation ⟨["A", "B", "C"], [], []⟩
        (Except.ok ⟨[⟨"A", []⟩, ⟨"B", []⟩]⟩)
        (Except.ok ⟨[⟨"A", []⟩, ⟨"B", []⟩, ⟨"C", []⟩]⟩) ⟨"drift.yaml"⟩ =
      Except.ok
        { validation_status := false,
          message := "Data validation failed due to: Columns are missing in training dataframe. ",
          drift_report_file_path := "drift.yaml" } ∧
    validate_number_of_columns ⟨["A", "B", "C"], [], []⟩ ⟨[⟨"A", []⟩, ⟨"B", []⟩]⟩ = false ∧
    validate_number_of_columns ⟨["A", "B", "C"], [], []⟩ ⟨[⟨"A", []⟩, ⟨"B", []⟩, ⟨"C", []⟩]⟩ = true ∧
    is_column_exist ⟨["A", "B", "C"], [], []⟩ ⟨[⟨"A", []⟩, ⟨"B", []⟩]⟩ = true ∧
    is_column_exist ⟨["A", "B", "C"], [], []⟩ ⟨[⟨"A", []⟩, ⟨"B", []⟩, ⟨"C", []⟩]⟩ = true ∧
    "Data validation failed due to: Columns are missing in training dataframe. " ≠
      "Columns are missing in training dataframe. " := by
  refine ⟨by decide, by decide, by decide, by decide, by decide, by decide⟩

/-- C4 as amended: the message of the artifact is the fixed success string
iff all four sub-checks pass; otherwise it is the fixed failure lead-in
"Data validation failed due to: " followed by the concatenation, in the
fixed order train-count, test-count, train-exist, test-exist, of
exactly the failure phrases of the checks that failed, and no others. -/
theorem claim_C4_amended (schema : SchemaConfig) (tr te : DataFrame)
    (cfg : DataValidationConfig) (a : DataValidationArtifact)
    (h : initiate_data_validation schema (Except.ok tr) (Except.ok te) cfg = Except.ok a) :
    (a.message = "Data validation successful. No schema or column issues found." ↔
      (validate_number_of_columns schema tr && validate_number_of_columns schema te &&
       is_column_exist schema tr && is_column_exist schema te) = true) ∧
    ((validate_number_of_columns schema tr && validate_number_of_columns schema te &&
      is_column_exist schema tr && is_column_exist schema te) = false →
      a.message = "Data validation failed due to: " ++
        ((if validate_number_of_columns schema tr then ""
          else "Columns are missing in training dataframe. ") ++
         (if validate_number_of_columns schema te then ""
          else "Columns are missing in test dataframe. ") ++
         (if is_column_exist schema tr then ""
          else "Required numerical/categorical columns are missing in training dataframe. ") ++
         (if is_column_exist schema te then ""
          else "Required numerical/categorical columns are missing in test dataframe. "))) := by
  rw [initiate_data_validation_ok_eq] at h
  injection h with h
  subst h
  cases hc1 : validate_number_of_columns schema tr <;>
    cases hc2 : validate_number_of_columns schema te <;>
      cases hc3 : is_column_exist schema tr <;>
        cases hc4 : is_column_exist schema te <;>
          simp [validation_error_message] <;> decide

/-- Witness for the amended C4: in the counterexample run, the message
is the failure lead-in followed by exactly the train-count failure
phrase. -/
theorem claim_C4_amended_witness :
    (({ validation_status := false,
        message := "Data validation failed due to: Columns are missing in training dataframe. ",
        drift_report_file_path := "drift.yaml" } : DataValidationArtifact).message =
        "Data validation successful. No schema or column issues found." ↔
      (validate_number_of_columns ⟨["A", "B", "C"], [], []⟩ ⟨[⟨"A", []⟩, ⟨"B", []⟩]⟩ &&
       validate_number_of_columns ⟨["A", "B", "C"], [], []⟩ ⟨[⟨"A", []⟩, ⟨"B", []⟩, ⟨"C", []⟩]⟩ &&
       is_column_exist ⟨["A", "B", "C"], [], []⟩ ⟨[⟨"A", []⟩, ⟨"B", []⟩]⟩ &&
       is_column_exist ⟨["A", "B", "C"], [], []⟩ ⟨[⟨"A", []⟩, ⟨"B", []⟩, ⟨"C", []⟩]⟩) = true) ∧
    ((validate_number_of_columns ⟨["A", "B", "C"], [], []⟩ ⟨[⟨"A", []⟩, ⟨"B", []⟩]⟩ &&
      validate_number_of_columns ⟨["A", "B", "C"], [], []⟩ ⟨[⟨"A", []⟩, ⟨"B", []⟩, ⟨"C", []⟩]⟩ &&
      is_column_exist ⟨["A", "B", "C"], [], []⟩ ⟨[⟨"A", []⟩, ⟨"B", []⟩]⟩ &&
      is_column_exist ⟨["A", "B", "C"], [], []⟩ ⟨[⟨"A", []⟩, ⟨"B", []⟩, ⟨"C", []⟩]⟩) = false →
      ({ validation_status := false,
         message := "Data validation failed due to: Columns are missing in training dataframe. ",
         drift_report_file_path := "drift.yaml" } : DataValidationArtifact).message =
        "Data validation failed due to: " ++
          ((if validate_number_of_columns ⟨["A", "B", "C"], [], []⟩ ⟨[⟨"A", []⟩, ⟨"B", []⟩]⟩ then ""
            else "Columns are missing in training dataframe. ") ++
           (if validate_number_of_columns ⟨["A", "B", "C"], [], []⟩ ⟨[⟨"A", []⟩, ⟨"B", []⟩, ⟨"C", []⟩]⟩ then ""
            else "Columns are missing in test dataframe. ") ++
           (if is_column_exist ⟨["A", "B", "C"], [], []⟩ ⟨[⟨"A", []⟩, ⟨"B", []⟩]⟩ then ""
            else "Required numerical/categorical columns are missing in training dataframe. ") ++
           (if is_column_exist ⟨["A", "B", "C"], [], []⟩ ⟨[⟨"A", []⟩, ⟨"B", []⟩, ⟨"C", []⟩]⟩ then ""
            else "Required numerical/categorical columns are missing in test dataframe. "))) :=
  claim_C4_amended ⟨["A", "B", "C"], [], []⟩ ⟨[⟨"A", []⟩, ⟨"B", []⟩]⟩
    ⟨[⟨"A", []⟩, ⟨"B", []⟩, ⟨"C", []⟩]⟩ ⟨"drift.yaml"⟩ _ (by decide)

/-- C1: every evaluation run that returns a result reports the model as
accepted with a zero score difference and best score equal to the
trained score, whatever the computed F1 value; the packaged artifact
likewise always has `is_model_accepted = true` and
`changed_accuracy = 0`. -/
theorem claim_C1 :
    (∀ (tf : Except String DataFrame) (lm : Except String USvisaModel)
        (r : EvaluateModelResponse), evaluate_model tf lm = Except.ok r →
      r.is_model_accepted = true ∧ r.difference = 0 ∧
        r.best_model_f1_score = r.trained_model_f1_score) ∧
    (∀ (tf : Except String DataFrame) (lm : Except String USvisaModel)
        (path : String) (a : ModelEvaluationArtifact),
        initiate_model_evaluation tf lm path = Except.ok a →
      a.is_model_accepted = true ∧ a.changed_accuracy = 0) := by
  have hev : ∀ (tf : Except String DataFrame) (lm : Except String USvisaModel)
      (r : EvaluateModelResponse), evaluate_model tf lm = Except.ok r →
      r.is_model_accepted = true ∧ r.difference = 0 ∧
        r.best_model_f1_score = r.trained_model_f1_score := by
    intro tf lm r h
    have hb := wrapRaw_eq_ok h
    unfold evaluate_model_body at hb
    obtain ⟨df, _, hb⟩ := exceptBind_eq_ok hb
    obtain ⟨yr, _, hb⟩ := exceptBind_eq_ok hb
    obtain ⟨age, _, hb⟩ := exceptBind_eq_ok hb
    obtain ⟨x, _, hb⟩ := exceptBind_eq_ok hb
    obtain ⟨y, _, hb⟩ := exceptBind_eq_ok hb
    obtain ⟨m, _, hb⟩ := exceptBind_eq_ok hb
    obtain ⟨yp, _, hb⟩ := exceptBind_eq_ok hb
    obtain ⟨yl, _, hb⟩ := exceptBind_eq_ok hb
    obtain ⟨sc, _, hb⟩ := exceptBind_eq_ok hb
    injection hb with hb
    subst hb
    exact ⟨rfl, rfl, rfl⟩
  refine ⟨hev, ?_⟩
  intro tf lm path a h
  have hb := wrapUSvisa_eq_ok h
  obtain ⟨resp, hresp, hb⟩ := exceptBind_eq_ok hb
  injection hb with hb
  subst hb
  obtain ⟨hacc, hdiff, _⟩ := hev tf lm resp hresp
  exact ⟨hacc, hdiff⟩

/-- Witness for C1: the Scenario 3 run succeeds, and its response and
artifact carry the degenerate acceptance fields. -/
theorem claim_C1_witness :
    (({ trained_model_f1_score := mkRat 2 3, best_model_f1_score := mkRat 2 3,
        is_model_accepted := true, difference := 0 } : EvaluateModelResponse).is_model_accepted = true ∧
     ({ trained_model_f1_score := mkRat 2 3, best_model_f1_score := mkRat 2 3,
        is_model_accepted := true, difference := 0 } : EvaluateModelResponse).difference = 0 ∧
     ({ trained_model_f1_score := mkRat 2 3, best_model_f1_score := mkRat 2 3,
        is_model_accepted := true, difference := 0 } : EvaluateModelResponse).best_model_f1_score =
       ({ trained_model_f1_score := mkRat 2 3, best_model_f1_score := mkRat 2 3,
          is_model_accepted := true, difference := 0 } : EvaluateModelResponse).trained_model_f1_score) ∧
    (({ is_model_accepted := true, trained_model_path := "artifact/model.pkl",
        changed_accuracy := 0 } : ModelEvaluationArtifact).is_model_accepted = true ∧
     ({ is_model_accepted := true, trained_model_path := "artifact/model.pkl",
        changed_accuracy := 0 } : ModelEvaluationArtifact).changed_accuracy = 0) :=
  ⟨claim_C1.1 (Except.ok dfScenario3) (Except.ok modelScenario3) _ (by decide),
   claim_C1.2 (Except.ok dfScenario3) (Except.ok modelScenario3) "artifact/model.pkl" _ (by decide)⟩

/-- C8: whenever an internal step of a stage fails, the public
operation returns no artifact and surfaces a single uniform wrapped
error kind — a `USvisaException` carrying the originating error: a
failed dataframe read makes `initiate_data_validation` raise it, and
more generally every run of `initiate_data_validation`,
`evaluate_model` or `initiate_model_evaluation` that produces no result
value raises exactly a `USvisaException`-wrapped error. -/
theorem claim_C8 :
    (∀ (schema : SchemaConfig) (tf sf : Except String DataFrame)
        (cfg : DataValidationConfig) (e : String),
      (tf = Except.error e ∨ sf = Except.error e) →
      ∃ p, initiate_data_validation schema tf sf cfg =
        Except.error (PyException.USvisaException p)) ∧
    (∀ (schema : SchemaConfig) (tf sf : Except String DataFrame)
        (cfg : DataValidationConfig),
      (∀ a, initiate_data_validation schema tf sf cfg ≠ Except.ok a) →
      ∃ p, initiate_data_validation schema tf sf cfg =
        Except.error (PyException.USvisaException p)) ∧
    (∀ (tf : Except String DataFrame) (lm : Except String USvisaModel),
      (∀ r, evaluate_model tf lm ≠ Except.ok r) →
      ∃ p, evaluate_model tf lm = Except.error (PyException.USvisaException p)) ∧
    (∀ (tf : Except String DataFrame) (lm : Except String USvisaModel) (path : String),
      (∀ a, initiate_model_evaluation tf lm path ≠ Except.ok a) →
      ∃ p, initiate_model_evaluation tf lm path =
        Except.error (PyException.USvisaException p)) := by
  refine ⟨?_, ?_, ?_, ?_⟩
  · intro schema tf sf cfg e h
    cases h with
    | inl h =>
        subst h
        exact ⟨PyException.USvisaException (PyException.raw e), rfl⟩
    | inr h =>
        subst h
        cases tf with
        | error e2 => exact ⟨PyException.USvisaException (PyException.raw e2), rfl⟩
        | ok tr => exact ⟨PyException.USvisaException (PyException.raw e), rfl⟩
  · intro schema tf sf cfg h
    exact wrapUSvisa_error_shape h
  · intro tf lm h
    exact wrapRaw_error_shape h
  · intro tf lm path h
    exact wrapUSvisa_error_shape h

/-- Witness for C8: a failed training-set read surfaces as a wrapped
`USvisaException` from the validator. -/
theorem claim_C8_witness :
    ∃ p, initiate_data_validation ⟨["A"], [], []⟩
        (Except.error "FileNotFoundError: train.csv") (Except.ok ⟨[]⟩) ⟨"drift.yaml"⟩ =
      Except.error (PyException.USvisaException p) :=
  claim_C8.1 ⟨["A"], [], []⟩ (Except.error "FileNotFoundError: train.csv")
    (Except.ok ⟨[]⟩) ⟨"drift.yaml"⟩ "FileNotFoundError: train.csv" (Or.inl rfl)

/-- C6: on a test dataframe whose `yr_of_estab` column holds the
integers `yrs`, evaluation proceeds — before any prediction or metric
computation — on the dataframe augmented with a `company_age` column
equal row-wise to `CURRENT_YEAR` minus the year, taking as feature
matrix all columns of the augmented dataframe except the target column
and as target vector the target column with its string labels replaced
through the fixed `TargetValueMapping`. -/
theorem claim_C6 (df : DataFrame) (lm : Except String USvisaModel) (yrs : List Int)
    (hyr : df.getSeries "yr_of_estab" = Except.ok (yrs.map Cell.int)) :
    evaluate_model (Except.ok df) lm =
      wrapRaw (do
        let augmented := df.setColumn "company_age"
          (yrs.map (fun v => Cell.int (CURRENT_YEAR - v)))
        let x ← augmented.drop TARGET_COLUMN
        let y ← augmented.getSeries TARGET_COLUMN
        let mapped_y := y.map (replaceCell TargetValueMapping_asdict)
        let m ← lm
        let y_pred ← m.predict x
        let y_labels ← seriesToLabels mapped_y
        let sc ← f1_score y_labels y_pred
        Except.ok { trained_model_f1_score := sc, best_model_f1_score := sc,
                    is_model_accepted := true, difference := 0 }) := by
  unfold evaluate_model evaluate_model_body
  rw [exceptBind_ok_left, hyr, exceptBind_ok_left, companyAgeSeries_map, exceptBind_ok_left]

/-- Witness for C6: the Scenario 3 dataframe has an integer
`yr_of_estab` column, and its evaluation factors through the augmented
dataframe as described. -/
theorem claim_C6_witness :
    evaluate_model (Except.ok dfScenario3) (Except.ok modelScenario3) =
      wrapRaw (do
        let augmented := dfScenario3.setColumn "company_age"
          (([2000, 2001, 2002, 2003] : List Int).map (fun v => Cell.int (CURRENT_YEAR - v)))
        let x ← augmented.drop TARGET_COLUMN
        let y ← augmented.getSeries TARGET_COLUMN
        let mapped_y := y.map (replaceCell TargetValueMapping_asdict)
        let m ← Except.ok modelScenario3
        let y_pred ← m.predict x
        let y_labels ← seriesToLabels mapped_y
        let sc ← f1_score y_labels y_pred
        Except.ok { trained_model_f1_score := sc, best_model_f1_score := sc,
                    is_model_accepted := true, difference := 0 }) :=
  claim_C6 dfScenario3 (Except.ok modelScenario3) [2000, 2001, 2002, 2003] (by decide)

/-- C7: on same-length binary label vectors with at least one true
positive, the F1 score the evaluator computes equals the standard
formula `2·P·R / (P + R)` — the harmonic mean of precision and recall
over the confusion counts — and the positive class 1 is exactly the
integer the fixed mapping assigns to the Certified label. -/
theorem claim_C7 (y_true y_pred : List Int)
    (hlen : y_true.length = y_pred.length)
    (hbin : isMulticlass (y_true ++ y_pred) = false)
    (htp : 0 < countTP y_true y_pred) :
    f1_score y_true y_pred =
      Except.ok (2 * precisionSpec y_true y_pred * recallSpec y_true y_pred /
        (precisionSpec y_true y_pred + recallSpec y_true y_pred)) ∧
    replaceCell TargetValueMapping_asdict (Cell.str "Certified") = Cell.int 1 := by
  refine ⟨?_, rfl⟩
  unfold f1_score
  rw [if_neg (by simp [hlen]), if_neg (by simp [hbin]),
    if_neg (by omega)]
  have ha : (0 : ℚ) < (countTP y_true y_pred : ℚ) := by exact_mod_cast htp
  have hab : (0 : ℚ) < (countTP y_true y_pred : ℚ) + (countFP y_true y_pred : ℚ) := by
    positivity
  have hac : (0 : ℚ) < (countTP y_true y_pred : ℚ) + (countFN y_true y_pred : ℚ) := by
    positivity
  have hP : 0 < precisionSpec y_true y_pred := div_pos ha hab
  have hR : 0 < recallSpec y_true y_pred := div_pos ha hac
  have hPR : precisionSpec y_true y_pred + recallSpec y_true y_pred ≠ 0 :=
    ne_of_gt (by positivity)
  congr 1
  rw [Rat.mkRat_eq_div]
  unfold precisionSpec recallSpec at hPR ⊢
  push_cast
  rw [div_eq_div_iff (by positivity) hPR]
  field_simp
  ring

/-- Witness for C7: the Scenario 3 vectors are binary, same-length and
have a true positive, so the computed F1 equals the harmonic-mean
formula there. -/
theorem claim_C7_witness :
    f1_score [1, 0, 1, 1] [1, 1, 1, 0] =
      Except.ok (2 * precisionSpec [1, 0, 1, 1] [1, 1, 1, 0] *
        recallSpec [1, 0, 1, 1] [1, 1, 1, 0] /
        (precisionSpec [1, 0, 1, 1] [1, 1, 1, 0] + recallSpec [1, 0, 1, 1] [1, 1, 1, 0])) ∧
    replaceCell TargetValueMapping_asdict (Cell.str "Certified") = Cell.int 1 :=
  claim_C7 [1, 0, 1, 1] [1, 1, 1, 0] (by rfl) (by decide) (by decide)
